import Mathlib

/-
Verification development for the particle integrator core of
src/src/particles/integrators_particle.c (Athena C version).

The C code is shallowly embedded over exact rationals (the C `Real`
arithmetic is modelled by ℚ; IEEE rounding is out of scope).  The external
collaborators that the integrator consumes (interpolation getweight/getvalues,
the gas velocity shift gasvshift, the stopping-time table get_ts, the math
library sqrt) are not part of the source extract; they are abstracted into a
`GasEnv` record of function parameters, and the feedback deposition
collaborators distrFB/distrFB_shear are modelled from the spec (see the doc
comments on distrFB and distrFB_shear below).  Everything else is translated
line by line from integrators_particle.c; comments cite the source lines.

Division by zero in ℚ yields 0 (C would produce an IEEE infinity); no claim
settled here depends on the value produced by a division by zero except where
explicitly discussed.
-/

namespace AthenaParticles

/-- Three-component vector of reals (the source's `Vector` struct, athena.h). -/
structure Vec where
  x1 : ℚ
  x2 : ℚ
  x3 : ℚ
deriving DecidableEq

/-- Componentwise sum of two Vec (used for `fd + fr` style totals). -/
def vadd (a b : Vec) : Vec :=
  ⟨a.x1 + b.x1, a.x2 + b.x2, a.x3 + b.x3⟩

/-- Sum of a list of Vec, componentwise, starting from zero. -/
def vsum : List Vec → Vec
  | [] => ⟨0, 0, 0⟩
  | v :: l => vadd v (vsum l)

/-- The gas sample produced by the interpolation collaborator `getvalues`:
density, three velocity components and the sound speed. -/
structure GasState where
  rho : ℚ
  u1 : ℚ
  u2 : ℚ
  u3 : ℚ
  cs : ℚ
deriving DecidableEq

/-- A particle (the source's `Grain` struct, particle.h): position, velocity,
species index `property`, status tag `pos` (0 = ghost, >= 1 = live,
10 = crossed out of the domain this step) and the FARGO azimuthal `shift`. -/
structure Grain where
  x1 : ℚ
  x2 : ℚ
  x3 : ℚ
  v1 : ℚ
  v2 : ℚ
  v3 : ℚ
  property : ℕ
  pos : ℤ
  shift : ℚ
deriving DecidableEq

/-- Build-time configuration flags of the source (#ifdef SHEARING_BOX,
FARGO, VERTICAL_GRAVITY, FEEDBACK) together with the global `Omega`. -/
structure Config where
  shearingBox : Bool
  fargo : Bool
  verticalGravity : Bool
  feedback : Bool
  Omega : ℚ
deriving DecidableEq

/-- The collaborator bundle consumed by the integrators.
`getvalues x1 x2 x3` is the composition of getweight and getvalues at a
position (none = the out-of-grid sentinel, getvalues returning nonzero);
`gasvshift` applies the steady drift correction to the sampled gas velocity;
`get_ts ty rho cs vd` is the species stopping time; `sqrt` models the C math
library square root (its output only feeds get_ts). -/
structure GasEnv where
  getvalues : ℚ → ℚ → ℚ → Option GasState
  gasvshift : ℚ → ℚ → ℚ → ℚ → ℚ → ℚ → ℚ × ℚ × ℚ
  get_ts : ℕ → ℚ → ℚ → ℚ → ℚ
  sqrt : ℚ → ℚ

/-- The integrator's view of the Grid struct: per-axis cell counts and
spacings, time and time step, the particle array (`nparticle` is its length),
the species table (grproperty[t].m as `mass`, grproperty[t].num as `num`),
the particle-region bounds x1lpar..x3upar, and the feedback buffer modelled
by its cell-sum total `fb` (see distrFB below). -/
structure Grid where
  Nx1 : ℕ
  Nx2 : ℕ
  Nx3 : ℕ
  dx1 : ℚ
  dx2 : ℚ
  dx3 : ℚ
  time : ℚ
  dt : ℚ
  particle : List Grain
  mass : ℕ → ℚ
  num : ℕ → ℤ
  x1lpar : ℚ
  x1upar : ℚ
  x2lpar : ℚ
  x2upar : ℚ
  x3lpar : ℚ
  x3upar : ℚ
  fb : Vec

/-- The source's SQR macro. -/
def SQR (x : ℚ) : ℚ := x * x

/-- The result of Get_Drag: the drag force, the stopping frequency 1/t_s
written through `tstop1`, and whether the non-fatal out-of-grid warning
(ath_perr at level 1, lines 759-762) was emitted. -/
structure DragRes where
  fd : Vec
  ts1 : ℚ
  warn : Bool
deriving DecidableEq

/-- Get_Drag (lines 731-772): interpolate the gas state at the given
position; in the grid, apply gasvshift, form the velocity difference,
its Euclidean magnitude, the stopping time and return the linear drag
force together with 1/t_s; out of the grid, warn non-fatally and return
zero force and zero stopping frequency (free motion). -/
def Get_Drag (env : GasEnv) (ty : ℕ) (x1 x2 x3 v1 v2 v3 : ℚ) : DragRes :=
  match env.getvalues x1 x2 x3 with
  | some gs =>
    let u := env.gasvshift x1 x2 x3 gs.u1 gs.u2 gs.u3
    let vd1 := v1 - u.1
    let vd2 := v2 - u.2.1
    let vd3 := v3 - u.2.2
    let vd := env.sqrt (SQR vd1 + SQR vd2 + SQR vd3)
    let tstop := env.get_ts ty gs.rho gs.cs vd
    let ts1 := 1 / tstop
    ⟨⟨-ts1 * vd1, -ts1 * vd2, -ts1 * vd3⟩, ts1, false⟩
  | none => ⟨⟨0, 0, 0⟩, 0, true⟩

/-- Get_Force (lines 782-814): the non-drag force.  Shearing-sheet tidal and
Coriolis terms in 3D (x1,x2,x3)=(X,Y,Z) or 2D (x1,x2,x3)=(X,Z,Y), with the
FARGO Coriolis coefficients in 3D and optional vertical gravity; zero
without SHEARING_BOX. -/
def Get_Force (cfg : Config) (grid : Grid) (x1 x2 x3 v1 v2 v3 : ℚ) : Vec :=
  if cfg.shearingBox = true then
    let omg2 := SQR cfg.Omega
    if 1 < grid.Nx3 then
      let f1 := if cfg.fargo = true then 2 * v2 * cfg.Omega
                else 3 * omg2 * x1 + 2 * v2 * cfg.Omega
      let f2 := if cfg.fargo = true then -0.5 * v1 * cfg.Omega
                else -2 * v1 * cfg.Omega
      let f3 := if cfg.verticalGravity = true then -omg2 * x3 else 0
      ⟨f1, f2, f3⟩
    else
      let f1 := 3 * omg2 * x1 + 2 * v3 * cfg.Omega
      let f2 := if cfg.verticalGravity = true then -omg2 * x2 else 0
      let f3 := -2 * v1 * cfg.Omega
      ⟨f1, f2, f3⟩
  else ⟨0, 0, 0⟩

/-- Half-step position predictor of the explicit and semi-implicit
integrators (lines 469-481 and 298-310): x + dt v / 2 per active axis,
with the non-FARGO 3D shearing advection correction 0.1875 v1 dt^2 on x2. -/
def predHalf (cfg : Config) (grid : Grid) (g : Grain) : ℚ × ℚ × ℚ :=
  let x1n := if 1 < grid.Nx1 then g.x1 + 0.5 * g.v1 * grid.dt else g.x1
  let x2n := if 1 < grid.Nx2 then g.x2 + 0.5 * g.v2 * grid.dt else g.x2
  let x3n := if 1 < grid.Nx3 then g.x3 + 0.5 * g.v3 * grid.dt else g.x3
  let x2n := if cfg.shearingBox = true ∧ cfg.fargo = false ∧ 1 < grid.Nx3 then
               x2n - 0.1875 * g.v1 * SQR grid.dt
             else x2n
  (x1n, x2n, x3n)

/-- Full-step position predictor of the fully implicit integrator
(lines 104-116): x + dt v per active axis, with the non-FARGO 3D shearing
advection correction 0.75 v1 dt^2 on x2. -/
def predFull (cfg : Config) (grid : Grid) (g : Grain) : ℚ × ℚ × ℚ :=
  let x1n := if 1 < grid.Nx1 then g.x1 + g.v1 * grid.dt else g.x1
  let x2n := if 1 < grid.Nx2 then g.x2 + g.v2 * grid.dt else g.x2
  let x3n := if 1 < grid.Nx3 then g.x3 + g.v3 * grid.dt else g.x3
  let x2n := if cfg.shearingBox = true ∧ cfg.fargo = false ∧ 1 < grid.Nx3 then
               x2n - 0.75 * g.v1 * SQR grid.dt
             else x2n
  (x1n, x2n, x3n)

/-- The two force evaluations of the fully implicit integrator
(lines 118-134): total force fc = drag + force at the current position,
fp at the full-step predictor position (both at the current velocity),
with the two stopping frequencies ts11 and ts12. -/
structure FulimpForces where
  fc : Vec
  fp : Vec
  ts11 : ℚ
  ts12 : ℚ
deriving DecidableEq

/-- Steps 2 and 3 of integrate_particle_fulimp (lines 118-134). -/
def fulimpEval (cfg : Config) (env : GasEnv) (grid : Grid) (g : Grain) : FulimpForces :=
  let pr := predFull cfg grid g
  let d1 := Get_Drag env g.property g.x1 g.x2 g.x3 g.v1 g.v2 g.v3
  let f1 := Get_Force cfg grid g.x1 g.x2 g.x3 g.v1 g.v2 g.v3
  let d2 := Get_Drag env g.property pr.1 pr.2.1 pr.2.2 g.v1 g.v2 g.v3
  let f2 := Get_Force cfg grid pr.1 pr.2.1 pr.2.2 g.v1 g.v2 g.v3
  ⟨vadd d1.fd f1, vadd d2.fd f2, d1.ts1, d2.ts1⟩

/-- The symmetrised total drive of the fully implicit integrator
(lines 136-158): ft = (fc + b0 fp)/2 with b0 = 1 + dt ts11, plus the
shearing-sheet Coriolis contribution of the predictor force: in 3D
ft1 += -oh fp2 and ft2 += oh fp1 / 4 (FARGO) or oh fp1 (non-FARGO); in
2D ft1 += -oh fp3 and ft3 += oh fp1 (no FARGO distinction in the source). -/
def fulimpFt (cfg : Config) (env : GasEnv) (grid : Grid) (g : Grain) : Vec :=
  let E := fulimpEval cfg env grid g
  let b0 := 1 + grid.dt * E.ts11
  let t1 := 0.5 * (E.fc.x1 + b0 * E.fp.x1)
  let t2 := 0.5 * (E.fc.x2 + b0 * E.fp.x2)
  let t3 := 0.5 * (E.fc.x3 + b0 * E.fp.x3)
  if cfg.shearingBox = true then
    let oh := cfg.Omega * grid.dt
    if 1 < grid.Nx3 then
      ⟨t1 - oh * E.fp.x2,
       (if cfg.fargo = true then t2 + 0.25 * oh * E.fp.x1 else t2 + oh * E.fp.x1),
       t3⟩
    else
      ⟨t1 - oh * E.fp.x3, t2, t3 + oh * E.fp.x1⟩
  else ⟨t1, t2, t3⟩

/-- The shared diagonal factor D of the fully implicit matrix (line 161):
D = 1 + dt (ts11 + ts12 + dt ts11 ts12) / 2. -/
def fulimpD (dt ts11 ts12 : ℚ) : ℚ :=
  1 + 0.5 * dt * (ts11 + ts12 + dt * ts11 * ts12)

/-- The 2x2 matrix of the fully implicit shearing-sheet update. -/
structure Mat where
  A : ℚ
  B : ℚ
  C : ℚ
  D : ℚ
deriving DecidableEq

/-- Matrix elements of the fully implicit shearing-sheet update
(lines 160-171): B = oh (-2 - (ts11+ts12) dt); with FARGO
A = D - oh^2/2 and C = -B/4, without FARGO A = D - 2 oh^2 and C = -B. -/
def fulimpMatrix (fargo : Bool) (dt ts11 ts12 oh : ℚ) : Mat :=
  let D := fulimpD dt ts11 ts12
  let oh2 := SQR oh
  let B := oh * (-2 - (ts11 + ts12) * dt)
  if fargo then ⟨D - 0.5 * oh2, B, -0.25 * B, D⟩
  else ⟨D - 2 * oh2, B, -B, D⟩

/-- Step 4 of integrate_particle_fulimp (lines 136-187): the velocity
update.  With a shearing sheet, solve the 2x2 system in the rotation
plane ((x1,x2) in 3D, (x1,x3) in 2D) with Det1 = 1/(A^2 - B C) and apply
dt ft / D on the remaining axis; without, dv = dt ft / D componentwise. -/
def dvFulimp (cfg : Config) (env : GasEnv) (grid : Grid) (g : Grain) : Vec :=
  let E := fulimpEval cfg env grid g
  let F := fulimpFt cfg env grid g
  if cfg.shearingBox = true then
    let oh := cfg.Omega * grid.dt
    let M := fulimpMatrix cfg.fargo grid.dt E.ts11 E.ts12 oh
    let Det1 := 1 / (SQR M.A - M.B * M.C)
    if 1 < grid.Nx3 then
      ⟨grid.dt * Det1 * (F.x1 * M.A - F.x2 * M.B),
       grid.dt * Det1 * (-F.x1 * M.C + F.x2 * M.A),
       grid.dt * F.x3 / M.D⟩
    else
      ⟨grid.dt * Det1 * (F.x1 * M.A - F.x3 * M.B),
       grid.dt * F.x2 / M.D,
       grid.dt * Det1 * (-F.x1 * M.C + F.x3 * M.A)⟩
  else
    let D1 := 1 / fulimpD grid.dt E.ts11 E.ts12
    ⟨grid.dt * F.x1 * D1, grid.dt * F.x2 * D1, grid.dt * F.x3 * D1⟩

/-- Steps 1-4 of integrate_particle_semimp (lines 298-362): evaluate the
total force at the half-step predictor position, then invert drag plus
Coriolis analytically: b = dt ts1 + 2, b1 = 1/(b^2 + oh^2) (FARGO) or
1/(b^2 + 4 oh^2), b2 = b b1. -/
def dvSemimp (cfg : Config) (env : GasEnv) (grid : Grid) (g : Grain) : Vec :=
  let pr := predHalf cfg grid g
  let d := Get_Drag env g.property pr.1 pr.2.1 pr.2.2 g.v1 g.v2 g.v3
  let f := Get_Force cfg grid pr.1 pr.2.1 pr.2.2 g.v1 g.v2 g.v3
  let ft := vadd d.fd f
  let b := grid.dt * d.ts1 + 2
  if cfg.shearingBox = true then
    let oh := cfg.Omega * grid.dt
    let b1 := if cfg.fargo = true then 1 / (SQR b + SQR oh)
              else 1 / (SQR b + 4 * SQR oh)
    let b2 := b * b1
    if 1 < grid.Nx3 then
      ⟨grid.dt * 2 * b2 * ft.x1 + grid.dt * 4 * oh * b1 * ft.x2,
       (if cfg.fargo = true then grid.dt * 2 * b2 * ft.x2 - grid.dt * oh * b1 * ft.x1
        else grid.dt * 2 * b2 * ft.x2 - 4 * grid.dt * oh * b1 * ft.x1),
       grid.dt * 2 * ft.x3 / b⟩
    else
      ⟨grid.dt * 2 * b2 * ft.x1 + grid.dt * 4 * oh * b1 * ft.x3,
       grid.dt * 2 * ft.x2 / b,
       grid.dt * 2 * b2 * ft.x3 - 4 * grid.dt * oh * b1 * ft.x1⟩
  else
    let b2 := 1 / b
    ⟨grid.dt * 2 * b2 * ft.x1, grid.dt * 2 * b2 * ft.x2, grid.dt * 2 * b2 * ft.x3⟩

/-- Steps 1-4 of integrate_particle_exp (lines 469-508): half-kick the
velocity with the force at the current state, re-evaluate the total force
at the half-step predictor state, and take dv = dt times that force. -/
def dvExp (cfg : Config) (env : GasEnv) (grid : Grid) (g : Grain) : Vec :=
  let pr := predHalf cfg grid g
  let d1 := Get_Drag env g.property g.x1 g.x2 g.x3 g.v1 g.v2 g.v3
  let f1 := Get_Force cfg grid g.x1 g.x2 g.x3 g.v1 g.v2 g.v3
  let ft1 := vadd d1.fd f1
  let v1n := g.v1 + 0.5 * ft1.x1 * grid.dt
  let v2n := g.v2 + 0.5 * ft1.x2 * grid.dt
  let v3n := g.v3 + 0.5 * ft1.x3 * grid.dt
  let d2 := Get_Drag env g.property pr.1 pr.2.1 pr.2.2 v1n v2n v3n
  let f2 := Get_Force cfg grid pr.1 pr.2.1 pr.2.2 v1n v2n v3n
  let ft := vadd d2.fd f2
  ⟨ft.x1 * grid.dt, ft.x2 * grid.dt, ft.x3 * grid.dt⟩

/-- Selector for the three integrators (they differ only in steps 1-4,
source comment at lines 43-46). -/
inductive Scheme where
  | exp : Scheme
  | semimp : Scheme
  | fulimp : Scheme
deriving DecidableEq

/-- The velocity update of the selected integrator. -/
def dvOf : Scheme → Config → GasEnv → Grid → Grain → Vec
  | Scheme.exp, cfg, env, grid, g => dvExp cfg env grid g
  | Scheme.semimp, cfg, env, grid, g => dvSemimp cfg env grid g
  | Scheme.fulimp, cfg, env, grid, g => dvFulimp cfg env grid g

/-- Steps 5-7, shared verbatim by the three integrators (lines 189-240,
364-413, 510-559): apply dv; advance positions by the trapezoidal rule on
active axes only; write the FARGO shift -0.75 Omega (x1 + x1new) dt; tag
pos = 10 when the new position leaves the particle region, where under
FARGO the x2 tests are omitted (lines 224-231); finally overwrite the
grain.  Returns the updated grain together with dv (dv feeds the feedback
corrector). -/
def stepGrain (s : Scheme) (cfg : Config) (env : GasEnv) (grid : Grid) (g : Grain) :
    Grain × Vec :=
  let dv := dvOf s cfg env grid g
  let v1n := g.v1 + dv.x1
  let v2n := g.v2 + dv.x2
  let v3n := g.v3 + dv.x3
  let x1n := if 1 < grid.Nx1 then g.x1 + 0.5 * grid.dt * (g.v1 + v1n) else g.x1
  let x2n := if 1 < grid.Nx2 then g.x2 + 0.5 * grid.dt * (g.v2 + v2n) else g.x2
  let x3n := if 1 < grid.Nx3 then g.x3 + 0.5 * grid.dt * (g.v3 + v3n) else g.x3
  let shiftn := if cfg.fargo = true then -0.75 * cfg.Omega * (g.x1 + x1n) * grid.dt
                else g.shift
  let posn : ℤ :=
    if cfg.fargo = true then
      if x1n ≥ grid.x1upar ∨ x1n < grid.x1lpar ∨ x3n ≥ grid.x3upar ∨ x3n < grid.x3lpar
      then 10 else g.pos
    else
      if x1n ≥ grid.x1upar ∨ x1n < grid.x1lpar ∨ x2n ≥ grid.x2upar ∨ x2n < grid.x2lpar
         ∨ x3n ≥ grid.x3upar ∨ x3n < grid.x3lpar
      then 10 else g.pos
  (⟨x1n, x2n, x3n, v1n, v2n, v3n, g.property, posn, shiftn⟩, dv)

/-- Decrement of the per-species counter grproperty[t].num (line 712). -/
def decrNum (num : ℕ → ℤ) (t : ℕ) : ℕ → ℤ :=
  fun s => if s = t then num s - 1 else num s

/-- The Delete_Ghost scan loop (lines 704-717) in zipper form: `done` is the
already-scanned prefix particle[0..p) (all non-ghost), `rest` is
particle[p..nparticle).  A ghost at the scan position is overwritten by the
last live entry and the array shrinks by one without advancing the scan;
otherwise the scan advances.  `fuel` bounds the iteration count (rest
shortens by one each step, so fuel = rest.length suffices). -/
def dgAux : ℕ → List Grain → List Grain → (ℕ → ℤ) → List Grain × (ℕ → ℤ)
  | 0, done, rest, num => (done ++ rest, num)
  | fuel + 1, done, rest, num =>
    match rest with
    | [] => (done ++ [], num)
    | g :: rs =>
      if g.pos = 0 then
        dgAux fuel done ((rs.getLast?.getD g :: rs).dropLast) (decrNum num g.property)
      else
        dgAux fuel (done ++ [g]) rs num

/-- Delete_Ghost (lines 699-720): purge all grains with pos == 0 by
swap-with-last-and-shrink, decrementing nparticle and the per-species
num counters. -/
def Delete_Ghost (grid : Grid) : Grid :=
  let r := dgAux grid.particle.length [] grid.particle grid.num
  { grid with particle := r.1, num := r.2 }

/-- Modelled from the spec: the collaborator `distrFB` (absent from the
source extract) adds the momentum density fb into the feedback buffer over
a 3x3x3 interpolation stencil whose weights sum to one, so a call deposits
exactly fb in total; the buffer is modelled by its cell-sum total. -/
def distrFB (buffer fb : Vec) : Vec := vadd buffer fb

/-- Modelled from the spec: the collaborator `distrFB_shear` (absent from
the source extract) relocates deposition between azimuthal columns near the
radial boundary in the non-FARGO 3D shearing box; by the spec's Conservation
clause the deposited total is unchanged, so on the cell-sum total it is the
identity. -/
def distrFB_shear (buffer fb : Vec) : Vec := buffer

/-- The momentum density handed by feedback_corrector to distrFB
(lines 655-673): m (dv - dt f) componentwise, with f the non-drag force at
the midpoint state (x, v averaged between entry and exit grain). -/
def fbValue (cfg : Config) (grid : Grid) (gri grf : Grain) (dv : Vec) : Vec :=
  let mgr := grid.mass gri.property
  let x1 := 0.5 * (gri.x1 + grf.x1)
  let x2 := 0.5 * (gri.x2 + grf.x2)
  let x3 := 0.5 * (gri.x3 + grf.x3)
  let v1 := 0.5 * (gri.v1 + grf.v1)
  let v2 := 0.5 * (gri.v2 + grf.v2)
  let v3 := 0.5 * (gri.v3 + grf.v3)
  let f := Get_Force cfg grid x1 x2 x3 v1 v2 v3
  ⟨mgr * (dv.x1 - grid.dt * f.x1),
   mgr * (dv.x2 - grid.dt * f.x2),
   mgr * (dv.x3 - grid.dt * f.x3)⟩

/-- feedback_corrector (lines 646-690) acting on the modelled buffer total:
deposit fbValue through distrFB, and in the non-FARGO 3D shearing box also
run distrFB_shear. -/
def feedback_corrector (cfg : Config) (grid : Grid) (buffer : Vec)
    (gri grf : Grain) (dv : Vec) : Vec :=
  let fb := fbValue cfg grid gri grf dv
  let buf1 := distrFB buffer fb
  if cfg.shearingBox = true ∧ cfg.fargo = false ∧ 1 < grid.Nx3 then
    distrFB_shear buf1 fb
  else buf1

/-- One full integrator call (any of the three public entry points): clear
the feedback buffer when FEEDBACK is on (feedback_clear), purge ghosts
(Delete_Ghost), then run the per-grain loop, accumulating the corrector
deposits.  Each grain's update depends only on the grid metadata and the
gas environment, so the serial in-place loop is a map. -/
def integrate (s : Scheme) (cfg : Config) (env : GasEnv) (grid : Grid) : Grid :=
  let g1 := Delete_Ghost grid
  let res := g1.particle.map (fun g => (g, stepGrain s cfg env g1 g))
  { g1 with
    particle := res.map (fun r => r.2.1),
    fb := if cfg.feedback = true then
            res.foldl (fun buf r => feedback_corrector cfg g1 buf r.1 r.2.1 r.2.2) ⟨0, 0, 0⟩
          else g1.fb }

/-- Spec-side definition, written from the words of the claim on the 3D
fully implicit velocity update (for comparison with the source translation
dvFulimp): Δv1 = dt (A F1 - B F2)/Det, Δv2 = dt (-C F1 + A F2)/Det,
Δv3 = dt F3/D, with D = 1 + dt (ts11 + ts12 + dt ts11 ts12)/2,
B = oh (-2 - (ts11 + ts12) dt), and A = D - oh^2/2, C = -B/4 under FARGO
or A = D - 2 oh^2, C = -B without FARGO, where Det = A^2 - B C. -/
def specFulimpDv (fargo : Bool) (dt ts11 ts12 oh : ℚ) (F : Vec) : Vec :=
  let D := 1 + 0.5 * dt * (ts11 + ts12 + dt * ts11 * ts12)
  let B := oh * (-2 - (ts11 + ts12) * dt)
  let A := if fargo then D - 0.5 * SQR oh else D - 2 * SQR oh
  let C := if fargo then -0.25 * B else -B
  let Det := SQR A - B * C
  ⟨dt * (A * F.x1 - B * F.x2) / Det,
   dt * (-C * F.x1 + A * F.x2) / Det,
   dt * F.x3 / D⟩

/-! Concrete instances used by the closed counterexamples and witnesses. -/

/-- A gas environment whose interpolation reports out-of-grid everywhere
(zero drag), with identity velocity shift, unit stopping time and identity
square root. -/
def env0 : GasEnv :=
  ⟨fun _ _ _ => none, fun _ _ _ u1 u2 u3 => (u1, u2, u3), fun _ _ _ _ => 1, fun x => x⟩

/-- Configuration with every physics flag off. -/
def cfg0 : Config := ⟨false, false, false, false, 0⟩

/-- A live grain at rest at the origin. -/
def g0 : Grain := ⟨0, 0, 0, 0, 0, 0, 0, 1, 0⟩

/-- A fully collapsed 1x1x1 grid with unit spacings, dt = 1, one grain g0,
unit species mass and wide particle bounds. -/
def grid0 : Grid :=
  ⟨1, 1, 1, 1, 1, 1, 0, 1, [g0], fun _ => 1, fun _ => 0, -10, 10, -10, 10, -10, 10, ⟨0, 0, 0⟩⟩

/-- Environment whose gas is everywhere present with velocity (0,0,1). -/
def env1 : GasEnv := { env0 with getvalues := fun _ _ _ => some ⟨1, 0, 0, 1, 1⟩ }

/-- Shearing-sheet FARGO configuration with Omega = 0. -/
def cfg2 : Config := ⟨true, true, false, false, 0⟩

/-- A grain moving upward in x2 at speed 2. -/
def g2 : Grain := ⟨0, 0, 0, 0, 2, 0, 0, 1, 0⟩

/-- A 2D grid (Nx3 = 1) whose x2 particle region ends at x2upar = 1. -/
def grid2 : Grid := { grid0 with Nx1 := 2, Nx2 := 2, particle := [g2], x2upar := 1 }

/-- Shearing-sheet non-FARGO configuration with Omega = 0. -/
def cfg3 : Config := ⟨true, false, false, false, 0⟩

/-- Environment with gas only at the origin, moving at u = (1,0,0), whose
stopping-time table returns the (unphysical) value -1/2, so the current-point
stopping frequency is -2 while the predictor point is out of the grid
(stopping frequency 0). -/
def env3 : GasEnv :=
  { env0 with
    getvalues := fun a b c => if a = 0 ∧ b = 0 ∧ c = 0 then some ⟨1, 1, 0, 0, 1⟩ else none,
    get_ts := fun _ _ _ _ => -(1/2) }

/-- A grain at the origin moving at v1 = 1. -/
def g3 : Grain := ⟨0, 0, 0, 1, 0, 0, 0, 1, 0⟩

/-- A 3D 2x2x2 grid with dt = 1 holding g3. -/
def grid3 : Grid := { grid0 with Nx1 := 2, Nx2 := 2, Nx3 := 2, particle := [g3] }

/-- Shearing-sheet FARGO configuration with Omega = 1. -/
def cfg4 : Config := ⟨true, true, false, false, 1⟩

/-- A grain with azimuthal velocity v3 = 1 (2D shearing sheet). -/
def g4 : Grain := ⟨0, 0, 0, 0, 0, 1, 0, 1, 0⟩

/-- A 2D grid (Nx3 = 1) with dt = 1 holding g4. -/
def grid4 : Grid := { grid0 with Nx1 := 2, Nx2 := 2, particle := [g4] }

/-- Shearing-sheet non-FARGO configuration with Omega = 1. -/
def cfg5 : Config := ⟨true, false, false, false, 1⟩

/-- A 3D 2x2x2 grid with dt = 1 holding g0. -/
def grid5 : Grid := { grid0 with Nx1 := 2, Nx2 := 2, Nx3 := 2, particle := [g0] }

/-- Environment with gas at rest everywhere and constant stopping time 2. -/
def env6 : GasEnv :=
  { env0 with getvalues := fun _ _ _ => some ⟨1, 0, 0, 0, 1⟩, get_ts := fun _ _ _ _ => 2 }

/-- The gas state sampled by env6. -/
def gs6 : GasState := ⟨1, 0, 0, 0, 1⟩

/-- A grain moving at v1 = 1 through gas at rest. -/
def g6 : Grain := ⟨0, 0, 0, 1, 0, 0, 0, 1, 0⟩

/-- The collapsed grid holding g6. -/
def grid6 : Grid := { grid0 with particle := [g6] }

/-- Configuration with only FEEDBACK on. -/
def cfg7 : Config := ⟨false, false, false, true, 0⟩

/-!  Helper lemmas shared by the claim theorems. -/

/-- An if-then-else takes one of its two branch values. -/
theorem ite_eq_else_or_then {α : Type} (c : Prop) [Decidable c] (x y : α) :
    (if c then x else y) = y ∨ (if c then x else y) = x := by
  by_cases h : c <;> simp [h]

/-- Without SHEARING_BOX the non-drag force vanishes (lines 784-785 and the
surrounding ifdef). -/
theorem Get_Force_eq_zero (cfg : Config) (grid : Grid) (x1 x2 x3 v1 v2 v3 : ℚ)
    (h : cfg.shearingBox = false) :
    Get_Force cfg grid x1 x2 x3 v1 v2 v3 = ⟨0, 0, 0⟩ := by
  simp [Get_Force, h]

/-- Replacing the head of a nonempty list by its last element and dropping
the last element permutes any filtered view of the tail.  This is the list
content of the swap-with-last step of Delete_Ghost. -/
theorem swapLast_filter_perm (g : Grain) (rs : List Grain) (q : Grain → Bool) :
    (((rs.getLast?.getD g :: rs).dropLast).filter q).Perm (rs.filter q) := by
  match rs with
  | [] => simp
  | a :: as =>
    have hne : (a :: as) ≠ ([] : List Grain) := by simp
    have hz : (a :: as).getLast? = some ((a :: as).getLast hne) :=
      List.getLast?_eq_getLast _ hne
    have hdrop : (((a :: as).getLast?.getD g) :: a :: as).dropLast
        = (a :: as).getLast hne :: (a :: as).dropLast := by
      rw [hz]
      rfl
    rw [hdrop]
    have h1 : ((a :: as).getLast hne :: (a :: as).dropLast).Perm
        ((a :: as).dropLast ++ [(a :: as).getLast hne]) :=
      (List.perm_append_singleton _ _).symm
    have h2 := h1.filter q
    rw [List.dropLast_append_getLast hne] at h2
    exact h2

/-- Invariant of the Delete_Ghost scan: with enough fuel, the final array is
a permutation of the scanned prefix followed by the non-ghost part of the
remainder, and each species counter drops by the number of ghosts of that
species in the remainder. -/
theorem dgAux_spec (fuel : ℕ) :
    ∀ (done rest : List Grain) (num : ℕ → ℤ), rest.length ≤ fuel →
    ((dgAux fuel done rest num).1.Perm (done ++ rest.filter (fun g => g.pos != 0)) ∧
     ∀ t : ℕ, (dgAux fuel done rest num).2 t
        = num t - ((rest.filter (fun g => g.pos == 0 && g.property == t)).length : ℤ)) := by
  induction fuel with
  | zero =>
    intro done rest num h
    have hr : rest = [] := List.eq_nil_of_length_eq_zero (Nat.le_zero.mp h)
    subst hr
    simp [dgAux]
  | succ n ih =>
    intro done rest num h
    match rest with
    | [] => simp [dgAux]
    | g :: rs =>
      by_cases hg : g.pos = 0
      · have hlen : ((rs.getLast?.getD g :: rs).dropLast).length ≤ n := by
          have h1 : rs.length ≤ n := by simpa using Nat.le_of_succ_le_succ (by simpa using h)
          simpa [List.length_dropLast] using h1
        have heq : dgAux (n + 1) done (g :: rs) num
            = dgAux n done ((rs.getLast?.getD g :: rs).dropLast) (decrNum num g.property) := by
          simp [dgAux, hg]
        obtain ⟨H1, H2⟩ :=
          ih done ((rs.getLast?.getD g :: rs).dropLast) (decrNum num g.property) hlen
        constructor
        · rw [heq]
          refine H1.trans (List.Perm.append_left done ?_)
          have hfil : (g :: rs).filter (fun x => x.pos != 0)
              = rs.filter (fun x => x.pos != 0) := by
            simp [List.filter_cons, hg]
          rw [hfil]
          exact swapLast_filter_perm g rs (fun x => x.pos != 0)
        · intro t
          rw [heq, H2 t]
          have hcnt :=
            (swapLast_filter_perm g rs (fun x => x.pos == 0 && x.property == t)).length_eq
          rw [hcnt]
          by_cases ht : g.property = t
          · simp only [decrNum, List.filter_cons, hg, ht]
            simp
            omega
          · simp only [decrNum, List.filter_cons, hg]
            simp [ht, Ne.symm ht]
      · have hlen : rs.length ≤ n := by simpa using Nat.le_of_succ_le_succ (by simpa using h)
        have heq : dgAux (n + 1) done (g :: rs) num = dgAux n (done ++ [g]) rs num := by
          simp [dgAux, hg]
        obtain ⟨H1, H2⟩ := ih (done ++ [g]) rs num hlen
        constructor
        · rw [heq]
          refine H1.trans ?_
          have : (g :: rs).filter (fun x => x.pos != 0)
              = g :: rs.filter (fun x => x.pos != 0) := by
            simp [List.filter_cons, hg]
          rw [this, List.append_assoc]
          exact List.Perm.refl _
        · intro t
          rw [heq, H2 t]
          have : (g :: rs).filter (fun x => x.pos == 0 && x.property == t)
              = rs.filter (fun x => x.pos == 0 && x.property == t) := by
            simp [List.filter_cons, hg]
          rw [this]

/-- Delete_Ghost leaves exactly the non-ghost grains, as a multiset. -/
theorem Delete_Ghost_perm (grid : Grid) :
    ((Delete_Ghost grid).particle).Perm (grid.particle.filter (fun g => g.pos != 0)) := by
  obtain ⟨H1, _⟩ := dgAux_spec grid.particle.length [] grid.particle grid.num (le_refl _)
  simpa [Delete_Ghost] using H1

/-- Delete_Ghost decrements each species counter by its number of ghosts. -/
theorem Delete_Ghost_num (grid : Grid) (t : ℕ) :
    (Delete_Ghost grid).num t
      = grid.num t
        - ((grid.particle.filter (fun g => g.pos == 0 && g.property == t)).length : ℤ) := by
  obtain ⟨_, H2⟩ := dgAux_spec grid.particle.length [] grid.particle grid.num (le_refl _)
  simpa [Delete_Ghost] using H2 t

/-!  Claim theorems. -/

/-- Claim C8: Delete_Ghost removes exactly the grains with pos == 0: the
survivors are the multiset of entry grains with pos not 0 (so nparticle,
the array length, equals their number), and each species counter num is
decremented by exactly the number of removed ghosts of that species. -/
theorem c8_delete_ghost (grid : Grid) :
    ((Delete_Ghost grid).particle).Perm (grid.particle.filter (fun g => g.pos != 0))
    ∧ ((Delete_Ghost grid).particle).length
        = (grid.particle.filter (fun g => g.pos != 0)).length
    ∧ ∀ t : ℕ, (Delete_Ghost grid).num t
        = grid.num t
          - ((grid.particle.filter (fun g => g.pos == 0 && g.property == t)).length : ℤ) :=
  ⟨Delete_Ghost_perm grid, (Delete_Ghost_perm grid).length_eq, Delete_Ghost_num grid⟩

/-- Claim C9: when the interpolation reports the out-of-domain sentinel,
Get_Drag returns zero drag force and zero stopping frequency (so the grain
evolves under the non-drag force alone that sub-step) and raises only the
non-fatal warning flag; the embedding is total, so no abort occurs. -/
theorem c9_drag_out_of_grid (env : GasEnv) (ty : ℕ) (x1 x2 x3 v1 v2 v3 : ℚ)
    (h : env.getvalues x1 x2 x3 = none) :
    Get_Drag env ty x1 x2 x3 v1 v2 v3 = ⟨⟨0, 0, 0⟩, 0, true⟩ := by
  simp [Get_Drag, h]

/-- Witness for c9_drag_out_of_grid at the concrete environment env0. -/
theorem c9_drag_out_of_grid_witness :
    env0.getvalues 0 0 0 = none ∧ Get_Drag env0 0 0 0 0 0 0 0 = ⟨⟨0, 0, 0⟩, 0, true⟩ :=
  ⟨rfl, c9_drag_out_of_grid env0 0 0 0 0 0 0 0 rfl⟩

/-- Claim C1 (counterexample): on the collapsed grid grid0 (Nx3 = 1) the
explicit integrator changes the grain's v3 from 0 to 1/2 (drag along the
collapsed axis still accelerates the grain), refuting the claim that both
x_i and v_i are preserved on a collapsed axis. -/
theorem c1_collapsed_axis_cex :
    grid0.Nx3 = 1 ∧ grid0.particle.map Grain.v3 = [0]
      ∧ (integrate Scheme.exp cfg0 env1 grid0).particle.map Grain.v3 = [1/2] :=
  ⟨rfl, rfl, by
    norm_num [integrate, Delete_Ghost, dgAux, decrNum, stepGrain, dvOf, dvExp, predHalf,
      Get_Drag, Get_Force, vadd, env1, env0, cfg0, grid0, g0, SQR]⟩

/-- Claim C1 (amended): for every grain and every collapsed axis i (Ni = 1),
the position component x_i after any of the three integrators equals its
pre-call value exactly; velocity components are not gated by collapsed axes. -/
theorem c1_collapsed_axis_positions (s : Scheme) (cfg : Config) (env : GasEnv)
    (grid : Grid) (g : Grain) :
    (grid.Nx1 = 1 → ((stepGrain s cfg env grid g).1).x1 = g.x1)
    ∧ (grid.Nx2 = 1 → ((stepGrain s cfg env grid g).1).x2 = g.x2)
    ∧ (grid.Nx3 = 1 → ((stepGrain s cfg env grid g).1).x3 = g.x3) := by
  refine ⟨fun h => ?_, fun h => ?_, fun h => ?_⟩ <;> simp [stepGrain, h]

/-- Witness for c1_collapsed_axis_positions on the concrete collapsed grid. -/
theorem c1_collapsed_axis_witness :
    grid0.Nx3 = 1 ∧ ((stepGrain Scheme.exp cfg0 env1 grid0 g0).1).x3 = g0.x3 :=
  ⟨rfl, (c1_collapsed_axis_positions Scheme.exp cfg0 env1 grid0 g0).2.2 rfl⟩

/-- Claim C2 (counterexample): in FARGO mode on a 2D grid (Nx3 = 1) a grain
whose updated x2 leaves [x2lpar, x2upar) is not tagged pos = 10 (the code
omits the x2 test under FARGO irrespective of dimensionality), refuting the
claim that a non-exempt active axis escape always tags. -/
theorem c2_fargo_boundary_cex :
    cfg2.fargo = true ∧ grid2.Nx3 = 1 ∧ 1 < grid2.Nx2
    ∧ (integrate Scheme.exp cfg2 env0 grid2).particle.map Grain.x2 = [2]
    ∧ grid2.x2upar = 1
    ∧ (integrate Scheme.exp cfg2 env0 grid2).particle.map Grain.pos = [1] :=
  ⟨rfl, rfl, by norm_num [grid2, grid0],
   by
     norm_num [integrate, Delete_Ghost, dgAux, decrNum, stepGrain, dvOf, dvExp, predHalf,
       Get_Drag, Get_Force, vadd, env0, cfg2, grid2, grid0, g2, SQR],
   rfl,
   by
     norm_num [integrate, Delete_Ghost, dgAux, decrNum, stepGrain, dvOf, dvExp, predHalf,
       Get_Drag, Get_Force, vadd, env0, cfg2, grid2, grid0, g2, SQR]⟩

/-- Claim C2 (amended): in FARGO mode the boundary test is independent of the
dimensionality: x2 is always exempt, and pos is set to 10 exactly when the
updated x1 or x3 leaves its half-open particle-region interval. -/
theorem c2_fargo_boundary (s : Scheme) (cfg : Config) (env : GasEnv) (grid : Grid)
    (g : Grain) (hf : cfg.fargo = true) :
    (((stepGrain s cfg env grid g).1.x1 ≥ grid.x1upar
        ∨ (stepGrain s cfg env grid g).1.x1 < grid.x1lpar
        ∨ (stepGrain s cfg env grid g).1.x3 ≥ grid.x3upar
        ∨ (stepGrain s cfg env grid g).1.x3 < grid.x3lpar)
      → (stepGrain s cfg env grid g).1.pos = 10)
    ∧ (¬((stepGrain s cfg env grid g).1.x1 ≥ grid.x1upar
        ∨ (stepGrain s cfg env grid g).1.x1 < grid.x1lpar
        ∨ (stepGrain s cfg env grid g).1.x3 ≥ grid.x3upar
        ∨ (stepGrain s cfg env grid g).1.x3 < grid.x3lpar)
      → (stepGrain s cfg env grid g).1.pos = g.pos) := by
  constructor <;> intro h
  · simp only [stepGrain, hf] at h ⊢
    simp only [if_true]
    rw [if_pos]
    simpa using h
  · simp only [stepGrain, hf] at h ⊢
    simp only [if_true]
    rw [if_neg]
    simpa using h

/-- Witness for c2_fargo_boundary: the concrete in-bounds (in x1 and x3)
grain keeps its pos. -/
theorem c2_fargo_boundary_witness :
    cfg2.fargo = true ∧ (stepGrain Scheme.exp cfg2 env0 grid2 g2).1.pos = g2.pos :=
  ⟨rfl, (c2_fargo_boundary Scheme.exp cfg2 env0 grid2 g2 rfl).2 (by
    norm_num [stepGrain, dvOf, dvExp, predHalf, Get_Drag, Get_Force, vadd,
      env0, cfg2, grid2, grid0, g2, SQR])⟩

/-- Claim C10: every grain surviving any of the three integrators descends
from an entry grain with pos not 0; its property is unchanged, its pos is
its entry value or 10 (no other value is ever assigned), and its shift is
untouched unless FARGO is enabled. -/
theorem c10_frame_effect (s : Scheme) (cfg : Config) (env : GasEnv) (grid : Grid)
    (g' : Grain) (h : g' ∈ (integrate s cfg env grid).particle) :
    ∃ g, g ∈ grid.particle ∧ g.pos ≠ 0 ∧ g'.property = g.property
      ∧ (g'.pos = g.pos ∨ g'.pos = 10)
      ∧ (cfg.fargo = false → g'.shift = g.shift) := by
  simp only [integrate, List.map_map, List.mem_map, Function.comp] at h
  obtain ⟨a, ha, rfl⟩ := h
  have ha2 : a ∈ grid.particle.filter (fun g => g.pos != 0) :=
    (Delete_Ghost_perm grid).mem_iff.mp ha
  rw [List.mem_filter] at ha2
  refine ⟨a, ha2.1, by simpa using ha2.2, ?_, ?_, ?_⟩
  · simp [stepGrain]
  · show (stepGrain s cfg env (Delete_Ghost grid) a).1.pos = a.pos
        ∨ (stepGrain s cfg env (Delete_Ghost grid) a).1.pos = 10
    unfold stepGrain
    dsimp only
    by_cases hf : cfg.fargo = true
    · rw [if_pos hf]
      exact ite_eq_else_or_then _ 10 a.pos
    · rw [if_neg hf]
      exact ite_eq_else_or_then _ 10 a.pos
  · intro hf
    simp [stepGrain, hf]

/-- Witness for c10_frame_effect on the concrete fixed-point grain g0. -/
theorem c10_frame_effect_witness :
    ∃ g, g ∈ grid0.particle ∧ g.pos ≠ 0 ∧ g0.property = g.property
      ∧ (g0.pos = g.pos ∨ g0.pos = 10)
      ∧ (cfg0.fargo = false → g0.shift = g.shift) :=
  c10_frame_effect Scheme.exp cfg0 env0 grid0 g0 (by
    norm_num [integrate, Delete_Ghost, dgAux, decrNum, stepGrain, dvOf, dvExp, predHalf,
      Get_Drag, Get_Force, vadd, env0, cfg0, grid0, g0, SQR])

/-- The absolute value of the semi-implicit drag amplification factor is at
most one for every nonnegative a. -/
theorem ratio_abs_le (b : ℚ) (hb : 0 ≤ b) : |(2 - b) / (2 + b)| ≤ 1 := by
  have h2 : (0:ℚ) < 2 + b := by linarith
  rw [abs_div, abs_of_pos h2, div_le_one h2, abs_le]
  constructor <;> linarith

/-- Claim C3 (counterexample): the fully implicit integrator contains no
determinant check and never aborts.  At this concrete input the determinant
A^2 - B C is 0 (ts11 = -2 from an unphysical stopping time -1/2, ts12 = 0
from an out-of-grid predictor, Omega = 0, dt = 1), yet the integrator
computes the velocity update and returns a grain, refuting the claim that
the update is only ever computed under Det > 0. -/
theorem c3_det_cex :
    SQR (fulimpMatrix cfg3.fargo grid3.dt (fulimpEval cfg3 env3 grid3 g3).ts11
          (fulimpEval cfg3 env3 grid3 g3).ts12 (cfg3.Omega * grid3.dt)).A
      - (fulimpMatrix cfg3.fargo grid3.dt (fulimpEval cfg3 env3 grid3 g3).ts11
          (fulimpEval cfg3 env3 grid3 g3).ts12 (cfg3.Omega * grid3.dt)).B
        * (fulimpMatrix cfg3.fargo grid3.dt (fulimpEval cfg3 env3 grid3 g3).ts11
            (fulimpEval cfg3 env3 grid3 g3).ts12 (cfg3.Omega * grid3.dt)).C ≤ 0
    ∧ (stepGrain Scheme.fulimp cfg3 env3 grid3 g3).1 = ⟨1, 0, 0, 1, 0, 0, 0, 1, 0⟩ := by
  constructor <;>
    norm_num [stepGrain, dvOf, dvFulimp, fulimpEval, fulimpFt, fulimpMatrix, fulimpD,
      predFull, Get_Drag, Get_Force, vadd, env3, env0, cfg3, grid3, grid0, g3, SQR]

/-- Claim C3 (amended): the source performs the division by A^2 - B C
unconditionally, with no fatal check; nevertheless, whenever dt >= 0 and
both stopping frequencies are nonnegative, the determinant A^2 - B C of the
fully implicit matrix is strictly positive, so the division is well
defined. -/
theorem c3_det_positive (fargo : Bool) (dt ts11 ts12 oh : ℚ)
    (hdt : 0 ≤ dt) (h1 : 0 ≤ ts11) (h2 : 0 ≤ ts12) :
    0 < SQR (fulimpMatrix fargo dt ts11 ts12 oh).A
        - (fulimpMatrix fargo dt ts11 ts12 oh).B * (fulimpMatrix fargo dt ts11 ts12 oh).C := by
  have hD : 1 ≤ fulimpD dt ts11 ts12 := by
    have a1 : 0 ≤ dt * (ts11 + ts12) := mul_nonneg hdt (add_nonneg h1 h2)
    have a2 : 0 ≤ dt * (dt * (ts11 * ts12)) :=
      mul_nonneg hdt (mul_nonneg hdt (mul_nonneg h1 h2))
    simp only [fulimpD]
    nlinarith
  have hm : -2 - (ts11 + ts12) * dt ≤ -2 := by
    nlinarith [mul_nonneg (add_nonneg h1 h2) hdt]
  rcases eq_or_ne oh 0 with h | h
  · subst h
    cases fargo <;> simp [fulimpMatrix, SQR] <;> nlinarith
  · have hmne : -2 - (ts11 + ts12) * dt ≠ 0 := by
      intro hc
      rw [hc] at hm
      norm_num at hm
    have hBpos : 0 < (oh * (-2 - (ts11 + ts12) * dt)) * (oh * (-2 - (ts11 + ts12) * dt)) :=
      mul_self_pos.mpr (mul_ne_zero h hmne)
    cases fargo
    · simp only [fulimpMatrix, SQR, Bool.false_eq_true, if_false]
      nlinarith [mul_self_nonneg (fulimpD dt ts11 ts12 - 2 * (oh * oh)), hBpos]
    · simp only [fulimpMatrix, SQR, if_true]
      nlinarith [mul_self_nonneg (fulimpD dt ts11 ts12 - 0.5 * (oh * oh)), hBpos]

/-- Witness for c3_det_positive at fargo = false, dt = ts11 = ts12 = oh = 1. -/
theorem c3_det_positive_witness :
    (0:ℚ) ≤ 1 ∧ 0 < SQR (fulimpMatrix false 1 1 1 1).A
      - (fulimpMatrix false 1 1 1 1).B * (fulimpMatrix false 1 1 1 1).C :=
  ⟨by norm_num, c3_det_positive false 1 1 1 1 (by norm_num) (by norm_num) (by norm_num)⟩

/-- Claim C4 (counterexample): in the 2D FARGO fully implicit path the
Coriolis contribution to the symmetrised drive on x3 is oh fp1 = 2 at this
concrete input, not the quarter-weighted 1/4 oh fp1 = 1/2 asserted by the
claim: the source's 2D branch has no FARGO distinction (lines 154-157). -/
theorem c4_2d_coriolis_cex :
    cfg4.fargo = true ∧ grid4.Nx3 = 1
    ∧ (fulimpFt cfg4 env0 grid4 g4).x3 = 2
    ∧ 0.5 * ((fulimpEval cfg4 env0 grid4 g4).fc.x3
          + (1 + grid4.dt * (fulimpEval cfg4 env0 grid4 g4).ts11)
            * (fulimpEval cfg4 env0 grid4 g4).fp.x3)
        + 0.25 * (cfg4.Omega * grid4.dt) * (fulimpEval cfg4 env0 grid4 g4).fp.x1 = 1/2
    ∧ (2 : ℚ) ≠ 1/2 := by
  refine ⟨rfl, rfl, ?_, ?_, by norm_num⟩ <;>
    norm_num [fulimpFt, fulimpEval, predFull, Get_Drag, Get_Force, vadd,
      env0, cfg4, grid4, grid0, g4, SQR]

/-- Claim C4 (amended): in the 2D shearing-sheet fully implicit path the
predictor Coriolis contributions are F1 += -oh fp3 and F3 += oh fp1 in both
the FARGO and non-FARGO configurations; the 1/4 FARGO weight appears only
in the 3D branch. -/
theorem c4_2d_coriolis (cfg : Config) (env : GasEnv) (grid : Grid) (g : Grain)
    (hsb : cfg.shearingBox = true) (h3 : grid.Nx3 = 1) :
    fulimpFt cfg env grid g
      = ⟨0.5 * ((fulimpEval cfg env grid g).fc.x1
            + (1 + grid.dt * (fulimpEval cfg env grid g).ts11)
              * (fulimpEval cfg env grid g).fp.x1)
          - cfg.Omega * grid.dt * (fulimpEval cfg env grid g).fp.x3,
         0.5 * ((fulimpEval cfg env grid g).fc.x2
            + (1 + grid.dt * (fulimpEval cfg env grid g).ts11)
              * (fulimpEval cfg env grid g).fp.x2),
         0.5 * ((fulimpEval cfg env grid g).fc.x3
            + (1 + grid.dt * (fulimpEval cfg env grid g).ts11)
              * (fulimpEval cfg env grid g).fp.x3)
          + cfg.Omega * grid.dt * (fulimpEval cfg env grid g).fp.x1⟩ := by
  have h3' : ¬ 1 < grid.Nx3 := by omega
  simp [fulimpFt, hsb, h3']

/-- Witness for c4_2d_coriolis at the concrete 2D FARGO input. -/
theorem c4_2d_coriolis_witness :
    cfg4.shearingBox = true ∧ grid4.Nx3 = 1
    ∧ fulimpFt cfg4 env0 grid4 g4
      = ⟨0.5 * ((fulimpEval cfg4 env0 grid4 g4).fc.x1
            + (1 + grid4.dt * (fulimpEval cfg4 env0 grid4 g4).ts11)
              * (fulimpEval cfg4 env0 grid4 g4).fp.x1)
          - cfg4.Omega * grid4.dt * (fulimpEval cfg4 env0 grid4 g4).fp.x3,
         0.5 * ((fulimpEval cfg4 env0 grid4 g4).fc.x2
            + (1 + grid4.dt * (fulimpEval cfg4 env0 grid4 g4).ts11)
              * (fulimpEval cfg4 env0 grid4 g4).fp.x2),
         0.5 * ((fulimpEval cfg4 env0 grid4 g4).fc.x3
            + (1 + grid4.dt * (fulimpEval cfg4 env0 grid4 g4).ts11)
              * (fulimpEval cfg4 env0 grid4 g4).fp.x3)
          + cfg4.Omega * grid4.dt * (fulimpEval cfg4 env0 grid4 g4).fp.x1⟩ :=
  ⟨rfl, rfl, c4_2d_coriolis cfg4 env0 grid4 g4 rfl rfl⟩

/-- In the 3D shearing-sheet branch the source's velocity update agrees with
the spec-side formulas of specFulimpDv. -/
theorem dvFulimp_3d_spec (cfg : Config) (env : GasEnv) (grid : Grid) (g : Grain)
    (hsb : cfg.shearingBox = true) (h3 : 1 < grid.Nx3) :
    dvFulimp cfg env grid g
      = specFulimpDv cfg.fargo grid.dt (fulimpEval cfg env grid g).ts11
          (fulimpEval cfg env grid g).ts12 (cfg.Omega * grid.dt)
          (fulimpFt cfg env grid g) := by
  cases hf : cfg.fargo <;>
    simp only [dvFulimp, specFulimpDv, fulimpMatrix, fulimpD, SQR, hsb, h3, hf,
      Bool.false_eq_true, if_false, if_true, Vec.mk.injEq] <;>
    refine ⟨?_, ?_, ?_⟩ <;> ring

/-- Claim C5: in the 3D shearing-sheet fully implicit integrator the
velocity update of every grain is Δv1 = dt (A F1 - B F2)/Det,
Δv2 = dt (-C F1 + A F2)/Det, Δv3 = dt F3/D, with the matrix elements and
determinant as specified (specFulimpDv), where ts11 and ts12 are the
stopping frequencies returned by the drag evaluations at the current and
predictor positions (fulimpEval). -/
theorem c5_fulimp_3d_velocity (cfg : Config) (env : GasEnv) (grid : Grid) (g : Grain)
    (hsb : cfg.shearingBox = true) (h3 : 1 < grid.Nx3) :
    (stepGrain Scheme.fulimp cfg env grid g).1.v1
        = g.v1 + (specFulimpDv cfg.fargo grid.dt (fulimpEval cfg env grid g).ts11
            (fulimpEval cfg env grid g).ts12 (cfg.Omega * grid.dt)
            (fulimpFt cfg env grid g)).x1
    ∧ (stepGrain Scheme.fulimp cfg env grid g).1.v2
        = g.v2 + (specFulimpDv cfg.fargo grid.dt (fulimpEval cfg env grid g).ts11
            (fulimpEval cfg env grid g).ts12 (cfg.Omega * grid.dt)
            (fulimpFt cfg env grid g)).x2
    ∧ (stepGrain Scheme.fulimp cfg env grid g).1.v3
        = g.v3 + (specFulimpDv cfg.fargo grid.dt (fulimpEval cfg env grid g).ts11
            (fulimpEval cfg env grid g).ts12 (cfg.Omega * grid.dt)
            (fulimpFt cfg env grid g)).x3 := by
  have hdv := dvFulimp_3d_spec cfg env grid g hsb h3
  refine ⟨?_, ?_, ?_⟩ <;> simp [stepGrain, dvOf, hdv]

/-- Witness for c5_fulimp_3d_velocity at the concrete 3D shearing input. -/
theorem c5_fulimp_3d_velocity_witness :
    cfg5.shearingBox = true ∧ 1 < grid5.Nx3
    ∧ (stepGrain Scheme.fulimp cfg5 env0 grid5 g0).1.v1
        = g0.v1 + (specFulimpDv cfg5.fargo grid5.dt (fulimpEval cfg5 env0 grid5 g0).ts11
            (fulimpEval cfg5 env0 grid5 g0).ts12 (cfg5.Omega * grid5.dt)
            (fulimpFt cfg5 env0 grid5 g0)).x1 :=
  ⟨rfl, by norm_num [grid5, grid0],
   (c5_fulimp_3d_velocity cfg5 env0 grid5 g0 rfl (by norm_num [grid5, grid0])).1⟩

/-- Claim C6: without a shearing sheet (so with zero non-drag force), one
semi-implicit step relaxes each velocity component toward the interpolated,
shift-corrected gas velocity u at the midpoint by the factor
(2 - a)/(2 + a) with a = dt/t_s; that factor has absolute value at most one
for every a >= 0, so the drag update contracts |v - u| unconditionally for
every dt > 0 and t_s > 0. -/
theorem c6_semimp_drag_stability
    (cfg : Config) (env : GasEnv) (grid : Grid) (g : Grain) (gs : GasState)
    (u : ℚ × ℚ × ℚ) (tstop a : ℚ)
    (hsb : cfg.shearingBox = false)
    (hgs : env.getvalues (predHalf cfg grid g).1 (predHalf cfg grid g).2.1
        (predHalf cfg grid g).2.2 = some gs)
    (hu : u = env.gasvshift (predHalf cfg grid g).1 (predHalf cfg grid g).2.1
        (predHalf cfg grid g).2.2 gs.u1 gs.u2 gs.u3)
    (hts : tstop = env.get_ts g.property gs.rho gs.cs
        (env.sqrt (SQR (g.v1 - u.1) + SQR (g.v2 - u.2.1) + SQR (g.v3 - u.2.2))))
    (hdt : 0 < grid.dt) (htp : 0 < tstop) (ha : a = grid.dt / tstop) :
    ((stepGrain Scheme.semimp cfg env grid g).1.v1 - u.1
        = (2 - a) / (2 + a) * (g.v1 - u.1)
      ∧ (stepGrain Scheme.semimp cfg env grid g).1.v2 - u.2.1
        = (2 - a) / (2 + a) * (g.v2 - u.2.1)
      ∧ (stepGrain Scheme.semimp cfg env grid g).1.v3 - u.2.2
        = (2 - a) / (2 + a) * (g.v3 - u.2.2))
    ∧ (|(stepGrain Scheme.semimp cfg env grid g).1.v1 - u.1| ≤ |g.v1 - u.1|
      ∧ |(stepGrain Scheme.semimp cfg env grid g).1.v2 - u.2.1| ≤ |g.v2 - u.2.1|
      ∧ |(stepGrain Scheme.semimp cfg env grid g).1.v3 - u.2.2| ≤ |g.v3 - u.2.2|)
    ∧ (∀ b : ℚ, 0 ≤ b → |(2 - b) / (2 + b)| ≤ 1) := by
  subst ha
  have ha0 : 0 < grid.dt / tstop := div_pos hdt htp
  have hts0 : tstop ≠ 0 := ne_of_gt htp
  have hratio : |(2 - grid.dt / tstop) / (2 + grid.dt / tstop)| ≤ 1 :=
    ratio_abs_le _ (le_of_lt ha0)
  have hdrag : Get_Drag env g.property (predHalf cfg grid g).1 (predHalf cfg grid g).2.1
      (predHalf cfg grid g).2.2 g.v1 g.v2 g.v3
      = ⟨⟨-(1/tstop) * (g.v1 - u.1), -(1/tstop) * (g.v2 - u.2.1),
          -(1/tstop) * (g.v3 - u.2.2)⟩, 1/tstop, false⟩ := by
    simp only [Get_Drag, hgs]
    rw [← hu, ← hts]
  have hGF := Get_Force_eq_zero cfg grid (predHalf cfg grid g).1 (predHalf cfg grid g).2.1
    (predHalf cfg grid g).2.2 g.v1 g.v2 g.v3 hsb
  have hb : grid.dt * (1/tstop) + 2 ≠ 0 := by
    have h0 : 0 < grid.dt * (1/tstop) := by positivity
    linarith
  have hc : 2 + grid.dt / tstop ≠ 0 := by linarith
  have heq1 : (stepGrain Scheme.semimp cfg env grid g).1.v1 - u.1
      = (2 - grid.dt / tstop) / (2 + grid.dt / tstop) * (g.v1 - u.1) := by
    simp only [stepGrain, dvOf, dvSemimp, hdrag, hGF, hsb, Bool.false_eq_true, if_false, vadd]
    field_simp
    ring
  have heq2 : (stepGrain Scheme.semimp cfg env grid g).1.v2 - u.2.1
      = (2 - grid.dt / tstop) / (2 + grid.dt / tstop) * (g.v2 - u.2.1) := by
    simp only [stepGrain, dvOf, dvSemimp, hdrag, hGF, hsb, Bool.false_eq_true, if_false, vadd]
    field_simp
    ring
  have heq3 : (stepGrain Scheme.semimp cfg env grid g).1.v3 - u.2.2
      = (2 - grid.dt / tstop) / (2 + grid.dt / tstop) * (g.v3 - u.2.2) := by
    simp only [stepGrain, dvOf, dvSemimp, hdrag, hGF, hsb, Bool.false_eq_true, if_false, vadd]
    field_simp
    ring
  refine ⟨⟨heq1, heq2, heq3⟩, ⟨?_, ?_, ?_⟩, fun b hb0 => ratio_abs_le b hb0⟩
  · rw [heq1, abs_mul]
    exact mul_le_of_le_one_left (abs_nonneg _) hratio
  · rw [heq2, abs_mul]
    exact mul_le_of_le_one_left (abs_nonneg _) hratio
  · rw [heq3, abs_mul]
    exact mul_le_of_le_one_left (abs_nonneg _) hratio

/-- Witness for c6_semimp_drag_stability: gas at rest, t_s = 2, dt = 1, so
a = 1/2 and v1 relaxes from 1 to (3/2)/(5/2) = 3/5. -/
theorem c6_semimp_drag_stability_witness :
    cfg0.shearingBox = false ∧ 0 < (2:ℚ)
    ∧ (stepGrain Scheme.semimp cfg0 env6 grid6 g6).1.v1 - (0:ℚ)
        = (2 - 1/2) / (2 + 1/2) * (g6.v1 - (0:ℚ)) :=
  ⟨rfl, by norm_num,
   ((c6_semimp_drag_stability cfg0 env6 grid6 g6 gs6 (0, 0, 0) 2 (1/2) rfl rfl rfl rfl
      (by norm_num [grid6, grid0]) (by norm_num) (by norm_num [grid6, grid0])).1).1⟩

/-- vadd is associative. -/
theorem vadd_assoc (p q r : Vec) : vadd (vadd p q) r = vadd p (vadd q r) := by
  simp only [vadd, Vec.mk.injEq]
  refine ⟨?_, ?_, ?_⟩ <;> ring

/-- The zero vector is a left unit for vadd. -/
theorem vadd_zero_left (p : Vec) : vadd ⟨0, 0, 0⟩ p = p := by
  cases p
  simp [vadd]

/-- feedback_corrector adds exactly fbValue to the modelled buffer total,
in every configuration (distrFB deposits fb; distrFB_shear relocates
without changing the total). -/
theorem feedback_corrector_vadd (cfg : Config) (grid : Grid) (buf : Vec)
    (gri grf : Grain) (dv : Vec) :
    feedback_corrector cfg grid buf gri grf dv
      = vadd buf (fbValue cfg grid gri grf dv) := by
  simp only [feedback_corrector, distrFB, distrFB_shear]
  split <;> rfl

/-- Folding vadd-deposits over a list sums the deposits. -/
theorem foldl_vadd_eq {α : Type} (f : α → Vec) (l : List α) :
    ∀ z : Vec, l.foldl (fun buf r => vadd buf (f r)) z = vadd z (vsum (l.map f)) := by
  induction l with
  | nil =>
    intro z
    cases z
    simp [vsum, vadd]
  | cons x xs ih =>
    intro z
    simp only [List.foldl_cons, List.map_cons, vsum, ih, vadd_assoc]

/-- Claim C7: with feedback enabled, the momentum density deposited by
feedback_corrector for each grain is m (dv - dt f) per component, with m
the species mass and f the non-drag force at the midpoint state, and the
total deposited over one integrator call is the sum of these over all
processed grains.  (The deposition collaborators are modelled from the
spec; see distrFB and distrFB_shear.) -/
theorem c7_feedback_total (s : Scheme) (cfg : Config) (env : GasEnv) (grid : Grid)
    (hfb : cfg.feedback = true) :
    (integrate s cfg env grid).fb
      = vsum (((Delete_Ghost grid).particle).map (fun g =>
          fbValue cfg (Delete_Ghost grid) g (stepGrain s cfg env (Delete_Ghost grid) g).1
            (stepGrain s cfg env (Delete_Ghost grid) g).2))
    ∧ ∀ (gri grf : Grain) (dv : Vec),
        fbValue cfg (Delete_Ghost grid) gri grf dv
          = ⟨(Delete_Ghost grid).mass gri.property * (dv.x1 - (Delete_Ghost grid).dt
                * (Get_Force cfg (Delete_Ghost grid) (0.5 * (gri.x1 + grf.x1))
                    (0.5 * (gri.x2 + grf.x2)) (0.5 * (gri.x3 + grf.x3))
                    (0.5 * (gri.v1 + grf.v1)) (0.5 * (gri.v2 + grf.v2))
                    (0.5 * (gri.v3 + grf.v3))).x1),
             (Delete_Ghost grid).mass gri.property * (dv.x2 - (Delete_Ghost grid).dt
                * (Get_Force cfg (Delete_Ghost grid) (0.5 * (gri.x1 + grf.x1))
                    (0.5 * (gri.x2 + grf.x2)) (0.5 * (gri.x3 + grf.x3))
                    (0.5 * (gri.v1 + grf.v1)) (0.5 * (gri.v2 + grf.v2))
                    (0.5 * (gri.v3 + grf.v3))).x2),
             (Delete_Ghost grid).mass gri.property * (dv.x3 - (Delete_Ghost grid).dt
                * (Get_Force cfg (Delete_Ghost grid) (0.5 * (gri.x1 + grf.x1))
                    (0.5 * (gri.x2 + grf.x2)) (0.5 * (gri.x3 + grf.x3))
                    (0.5 * (gri.v1 + grf.v1)) (0.5 * (gri.v2 + grf.v2))
                    (0.5 * (gri.v3 + grf.v3))).x3)⟩ := by
  constructor
  · simp only [integrate, hfb, if_true]
    have hfun : (fun (buf : Vec) (r : Grain × Grain × Vec) =>
        feedback_corrector cfg (Delete_Ghost grid) buf r.1 r.2.1 r.2.2)
        = fun buf r => vadd buf (fbValue cfg (Delete_Ghost grid) r.1 r.2.1 r.2.2) := by
      funext buf r
      exact feedback_corrector_vadd cfg (Delete_Ghost grid) buf r.1 r.2.1 r.2.2
    rw [hfun, foldl_vadd_eq, vadd_zero_left, List.map_map]
    rfl
  · intro gri grf dv
    rfl

/-- Witness for c7_feedback_total with feedback enabled on grid0. -/
theorem c7_feedback_total_witness :
    cfg7.feedback = true
    ∧ (integrate Scheme.exp cfg7 env0 grid0).fb
        = vsum (((Delete_Ghost grid0).particle).map (fun g =>
            fbValue cfg7 (Delete_Ghost grid0) g
              (stepGrain Scheme.exp cfg7 env0 (Delete_Ghost grid0) g).1
              (stepGrain Scheme.exp cfg7 env0 (Delete_Ghost grid0) g).2)) :=
  ⟨rfl, (c7_feedback_total Scheme.exp cfg7 env0 grid0 rfl).1⟩

end AthenaParticles
